import Mathlib

/-!
Verification of the T.31 Class 1 FAX modem core (t31.c) against its
natural-language specification.  The definitions below are a shallow
embedding of the relevant C functions: machine integers become Nat/Int,
fixed C buffers become total functions Nat → Nat together with an index,
external callbacks (CTS modem control, DTE responses, T.38 packet output,
HDLC frame delivery) become recorded event lists, and the external DSP
objects (modulators, demodulators, power meter) are abstracted as opaque
state-transformers constrained by hypotheses where a claim needs them.
-/

set_option maxHeartbeats 1000000

/-! ## Byte-level and timing constants (t31.c) -/

/-- DLE escape byte, 0x10 (t31.c line 96). -/
def DLE : Nat := 0x10

/-- ETX end-of-text byte, 0x03 (t31.c line 95). -/
def ETX : Nat := 0x03

/-- SUB byte, 0x1A (t31.c line 97). -/
def SUB : Nat := 0x1A

/-- Modelled from the spec: the transmit ring size T31_TX_BUF_LEN is declared
in the header t31.h, which is not part of the provided source; the spec
(section 3) states the buffer is at least 16 KiB, so 16384 is used. -/
def T31_TX_BUF_LEN : Nat := 16384

/-- Sample-rate conversion: milliseconds to 8 kHz samples, the ms_to_samples
macro of the source tree. -/
def ms_to_samples (t : Nat) : Nat := t * 8000 / 1000

/-- MS_PER_TX_CHUNK (t31.c line 80). -/
def MS_PER_TX_CHUNK : Nat := 30

/-- INDICATOR_TX_COUNT (t31.c line 81). -/
def INDICATOR_TX_COUNT : Nat := 3

/-- DATA_TX_COUNT (t31.c line 82). -/
def DATA_TX_COUNT : Nat := 1

/-- DATA_END_TX_COUNT (t31.c line 83). -/
def DATA_END_TX_COUNT : Nat := 3

/-- MID_RX_TIMEOUT in milliseconds (t31.c line 90). -/
def MID_RX_TIMEOUT : Nat := 15000

/-- Modelled from the spec: PUTBIT_END_OF_DATA is a negative sentinel bit
value declared in the async.h header, which is not part of the provided
source; only its negativity and distinctness matter here. -/
def PUTBIT_END_OF_DATA : Int := -7

/-- Modelled from the spec: T30_MODEM_DONE is an enumerator of the t30.h
header, which is not part of the provided source; only equality against it
is ever tested, so the concrete value is immaterial. -/
def T30_MODEM_DONE : Int := 99

/-! ## The modem-role enumeration of t31.c (lines 99-115), as C int values -/

def T31_FLUSH : Int := 0
def T31_SILENCE_TX : Int := 1
def T31_SILENCE_RX : Int := 2
def T31_CED_TONE : Int := 3
def T31_CNG_TONE : Int := 4
def T31_NOCNG_TONE : Int := 5
def T31_V21_TX : Int := 6
def T31_V17_TX : Int := 7
def T31_V27TER_TX : Int := 8
def T31_V29_TX : Int := 9
def T31_V21_RX : Int := 10
def T31_V17_RX : Int := 11
def T31_V27TER_RX : Int := 12
def T31_V29_RX : Int := 13

/-- DTE-side AT interpreter modes (at_interpreter.h names used by t31.c). -/
inductive AtMode where
  | onhook_command
  | offhook_command
  | hdlc
  | stuffed
  | delivery
deriving DecidableEq, Repr

/-- CTS flow-control callback invocations: at_modem_control with
AT_MODEM_CONTROL_CTS and argument 1 (assert) or 0 (deassert). -/
inductive CtsEvent where
  | assert
  | deassert
deriving DecidableEq, Repr

/-- AT response codes emitted via at_put_response_code. -/
inductive Resp where
  | ok
  | error
  | connect
  | no_carrier
  | fcerror
  | frh3
deriving DecidableEq, Repr

/-! ## The DTE transmit framer state (the t31_state_t fields touched by
dle_unstuff, non_ecm_get_bit, the STUFFED branch of t31_at_rx, the ONHOOK
branch of t31_modem_control_handler and restart_modem) -/

structure TxState where
  dled : Bool
  tx_data : Nat → Nat
  tx_in_bytes : Nat
  tx_out_bytes : Nat
  tx_holding : Bool
  data_final : Bool
  at_rx_mode : AtMode
  tx_data_started : Bool
  current_byte : Nat
  bit_no : Nat
  modem : Int
  t38_mode : Bool

/-- One write of the C statement tx_data[tx_in_bytes++] = c. -/
def tx_store (s : TxState) (c : Nat) : TxState :=
  { s with tx_data := Function.update s.tx_data s.tx_in_bytes c,
           tx_in_bytes := s.tx_in_bytes + 1 }

/-- Result of the for-loop of dle_unstuff: either the loop ran off the end of
its input, or a return statement fired inside it (DLE-ETX terminator seen, or
the buffer bound was exceeded after a write). -/
inductive UnstuffResult where
  | finished (s : TxState)
  | early (s : TxState)

/-- The for-loop of dle_unstuff (t31.c lines 1355-1379), byte by byte. -/
def dle_unstuff_loop : TxState → List Nat → UnstuffResult
  | s, [] => .finished s
  | s, c :: rest =>
    if s.dled = true then
      if c = ETX then
        .early { s with dled := false, data_final := true, at_rx_mode := .offhook_command }
      else
        if T31_TX_BUF_LEN - 1 < (tx_store { s with dled := false } c).tx_in_bytes then
          .early (tx_store { s with dled := false } c)
        else
          dle_unstuff_loop (tx_store { s with dled := false } c) rest
    else if c = DLE then
      dle_unstuff_loop { s with dled := true } rest
    else
      if T31_TX_BUF_LEN - 1 < (tx_store s c).tx_in_bytes then
        .early (tx_store s c)
      else
        dle_unstuff_loop (tx_store s c) rest

/-- dle_unstuff (t31.c lines 1351-1390): the loop followed by the trailing
flow-control check, which is skipped whenever a return fired inside the
loop.  The CTS deassertion is recorded as an event. -/
def dle_unstuff (s : TxState) (stuffed : List Nat) : TxState × List CtsEvent :=
  match dle_unstuff_loop s stuffed with
  | .early s1 => (s1, [])
  | .finished s1 =>
    if s1.tx_holding = false ∧ T31_TX_BUF_LEN - 1024 < s1.tx_in_bytes then
      ({ s1 with tx_holding := true }, [CtsEvent.deassert])
    else
      (s1, [])

/-- The buffer compaction of the AT_MODE_STUFFED branch of t31_at_rx
(t31.c lines 1610-1616): when tx_out_bytes is nonzero, memmove the pending
bytes to the front and rebase the indices. -/
def compact_tx (s : TxState) : TxState :=
  if s.tx_out_bytes ≠ 0 then
    { s with tx_in_bytes := s.tx_in_bytes - s.tx_out_bytes,
             tx_data := fun i =>
               if i < s.tx_in_bytes - s.tx_out_bytes then s.tx_data (i + s.tx_out_bytes)
               else s.tx_data i,
             tx_out_bytes := 0 }
  else s

/-- The AT_MODE_STUFFED branch of t31_at_rx (t31.c lines 1609-1617):
compaction followed by dle_unstuff. -/
def t31_at_rx_stuffed (s : TxState) (bytes : List Nat) : TxState × List CtsEvent :=
  dle_unstuff (compact_tx s) bytes

/-- non_ecm_get_bit (t31.c lines 764-812).  Returns the produced bit (or the
end-of-data sentinel), the new state, and any CTS event. -/
def non_ecm_get_bit (s : TxState) : Int × TxState × List CtsEvent :=
  if s.bit_no = 0 then
    if s.tx_out_bytes ≠ s.tx_in_bytes then
      let cur := s.tx_data s.tx_out_bytes
      let out1 := s.tx_out_bytes + 1
      let out2 := if T31_TX_BUF_LEN - 1 < out1 then T31_TX_BUF_LEN - 1 else out1
      let base := { s with current_byte := cur, tx_out_bytes := out2,
                           tx_data_started := true, bit_no := 8 }
      if s.tx_holding = true ∧ 1024 < out2 then
        (((base.current_byte % 2 : Nat) : Int),
         { base with tx_holding := false, bit_no := 7, current_byte := base.current_byte / 2 },
         [CtsEvent.assert])
      else
        (((base.current_byte % 2 : Nat) : Int),
         { base with bit_no := 7, current_byte := base.current_byte / 2 },
         [])
    else if s.data_final = true then
      (PUTBIT_END_OF_DATA, { s with data_final := false }, [])
    else
      let cur : Nat := if s.tx_data_started then 0x00 else 0xFF
      (((cur % 2 : Nat) : Int),
       { s with current_byte := cur / 2, bit_no := 7 },
       [])
  else
    (((s.current_byte % 2 : Nat) : Int),
     { s with current_byte := s.current_byte / 2, bit_no := s.bit_no - 1 },
     [])

/-- restart_modem (t31.c lines 1017-1306), restricted to its effects on the
TxState fields.  The DSP handler wiring, HDLC buffers and rx-side flags live
outside this state; the dled resets performed by t31_v21_rx and the V21_TX
branch are included. -/
def restart_modem_tx (s : TxState) (new_modem : Int) : TxState :=
  if s.modem = new_modem then s
  else
    let s1 := { s with modem := new_modem, data_final := false }
    let s2 :=
      if new_modem = T31_CNG_TONE then
        (if s1.t38_mode then s1 else { s1 with dled := false })
      else if new_modem = T31_NOCNG_TONE then
        (if s1.t38_mode then s1 else { s1 with dled := false })
      else if new_modem = T31_V21_TX then
        { s1 with dled := false }
      else if new_modem = T31_V21_RX then
        (if s1.t38_mode then s1 else { s1 with dled := false })
      else if new_modem = T31_V17_TX ∨ new_modem = T31_V27TER_TX ∨ new_modem = T31_V29_TX then
        { s1 with tx_out_bytes := 0, tx_data_started := false }
      else if new_modem = T31_V17_RX ∨ new_modem = T31_V27TER_RX ∨ new_modem = T31_V29_RX then
        (if s1.t38_mode then s1 else { s1 with dled := false })
      else if new_modem = T31_FLUSH then
        (if s1.t38_mode then s1 else { s1 with modem := T31_SILENCE_TX })
      else s1
    { s2 with bit_no := 0, current_byte := 0xFF, tx_in_bytes := 0, tx_out_bytes := 0 }

/-- The AT_MODEM_CONTROL_ONHOOK branch of t31_modem_control_handler
(t31.c lines 676-691): release flow control (asserting CTS) if holding, then
restart to silence.  The DLE-ETX flush toward the DTE touches only the
AT-interpreter rx_data buffer, outside this state. -/
def onhook_step (s : TxState) : TxState × List CtsEvent :=
  if s.tx_holding = true then
    (restart_modem_tx { s with tx_holding := false } T31_SILENCE_TX, [CtsEvent.assert])
  else
    (restart_modem_tx s T31_SILENCE_TX, [])

/-- The externally driven events that touch the transmit ring. -/
inductive TxEvent where
  | atRx (bytes : List Nat)
  | getBit
  | onhook
  | restart (m : Int)

/-- One externally driven step of the transmit-ring subsystem, with the CTS
events it emits. -/
def txStep (s : TxState) : TxEvent → TxState × List CtsEvent
  | .atRx b => t31_at_rx_stuffed s b
  | .getBit => ((non_ecm_get_bit s).2.1, (non_ecm_get_bit s).2.2)
  | .onhook => onhook_step s
  | .restart m => (restart_modem_tx s m, [])

/-- Initial transmit-framer state: the zeroed state produced by t31_init
(memset) with the DTE in STUFFED mode as set up by process_class1_cmd for a
non-ECM transmission. -/
def initTxState : TxState :=
  { dled := false, tx_data := fun _ => 0, tx_in_bytes := 0, tx_out_bytes := 0,
    tx_holding := false, data_final := false, at_rx_mode := .stuffed,
    tx_data_started := false, current_byte := 0, bit_no := 0, modem := -1,
    t38_mode := false }

/-- Reachability of transmit-ring states from the initial state under the
externally driven events. -/
def TxReachable (s : TxState) : Prop :=
  Relation.ReflTransGen (fun a b => ∃ e, (txStep a e).1 = b) initTxState s

/-- DLE stuffing as the specification describes it (section 8, round-trip
law): every DLE byte of the payload is doubled. -/
def dle_stuff : List Nat → List Nat
  | [] => []
  | c :: rest => if c = DLE then DLE :: c :: dle_stuff rest else c :: dle_stuff rest

/-! ## Basic lemmas about the transmit-ring operations -/

@[simp] lemma tx_store_dled (s : TxState) (c : Nat) : (tx_store s c).dled = s.dled := rfl

@[simp] lemma tx_store_tx_in (s : TxState) (c : Nat) :
    (tx_store s c).tx_in_bytes = s.tx_in_bytes + 1 := rfl

@[simp] lemma tx_store_tx_out (s : TxState) (c : Nat) :
    (tx_store s c).tx_out_bytes = s.tx_out_bytes := rfl

@[simp] lemma tx_store_holding (s : TxState) (c : Nat) :
    (tx_store s c).tx_holding = s.tx_holding := rfl

@[simp] lemma tx_store_final (s : TxState) (c : Nat) :
    (tx_store s c).data_final = s.data_final := rfl

@[simp] lemma tx_store_mode (s : TxState) (c : Nat) :
    (tx_store s c).at_rx_mode = s.at_rx_mode := rfl

@[simp] lemma tx_store_data (s : TxState) (c : Nat) :
    (tx_store s c).tx_data = Function.update s.tx_data s.tx_in_bytes c := rfl

/-- Processing a concatenation: once a prefix completes the loop normally, the
rest of the input continues from the intermediate state. -/
lemma dle_unstuff_loop_append (p : List Nat) : ∀ (s s' : TxState) (q : List Nat),
    dle_unstuff_loop s p = .finished s' →
    dle_unstuff_loop s (p ++ q) = dle_unstuff_loop s' q := by
  induction p with
  | nil =>
    intro s s' q h
    simp only [dle_unstuff_loop, UnstuffResult.finished.injEq] at h
    rw [List.nil_append, h]
  | cons c rest ih =>
    intro s s' q h
    simp only [dle_unstuff_loop, List.cons_append] at h ⊢
    split_ifs at h ⊢ <;> exact ih _ s' q h

/-- Feeding n copies of a non-DLE byte that fit below the buffer bound: the
loop finishes, appending all n bytes. -/
lemma loop_replicate_fits (n : Nat) : ∀ (s : TxState) (c : Nat), c ≠ DLE → s.dled = false →
    s.tx_in_bytes + n ≤ T31_TX_BUF_LEN - 1 →
    ∃ s1, dle_unstuff_loop s (List.replicate n c) = .finished s1 ∧
      s1.dled = false ∧ s1.tx_in_bytes = s.tx_in_bytes + n ∧
      s1.tx_out_bytes = s.tx_out_bytes ∧ s1.tx_holding = s.tx_holding ∧
      s1.data_final = s.data_final ∧ s1.at_rx_mode = s.at_rx_mode := by
  induction n with
  | zero =>
    intro s c _ hd _
    exact ⟨s, rfl, hd, by omega, rfl, rfl, rfl, rfl⟩
  | succ k ih =>
    intro s c hc hd hb
    rw [List.replicate_succ]
    have hnb : ¬ (T31_TX_BUF_LEN - 1 < (tx_store s c).tx_in_bytes) := by
      simp only [tx_store_tx_in]; omega
    simp only [dle_unstuff_loop, hd, if_neg hc, if_neg hnb, Bool.false_eq_true, if_false]
    obtain ⟨s1, h1, hd1, hin1, hout1, hhold1, hfin1, hmode1⟩ :=
      ih (tx_store s c) c hc (by simp [hd]) (by simp only [tx_store_tx_in]; omega)
    exact ⟨s1, h1, hd1, by simp only [tx_store_tx_in] at hin1; omega,
      by rw [hout1, tx_store_tx_out], by rw [hhold1, tx_store_holding],
      by rw [hfin1, tx_store_final], by rw [hmode1, tx_store_mode]⟩

/-- Feeding enough copies of a non-DLE byte to cross the buffer bound: the
loop stops early with a return, leaving the final-data flag, the mode, the
flow-control flag and the read index untouched, and the write index one past
the point at which the bound check fired. -/
lemma loop_replicate_overflow (n : Nat) : ∀ (s : TxState) (c : Nat) (rest : List Nat),
    c ≠ DLE → s.dled = false → 0 < n → T31_TX_BUF_LEN - 1 < s.tx_in_bytes + n →
    ∃ s1, dle_unstuff_loop s (List.replicate n c ++ rest) = .early s1 ∧
      s1.dled = false ∧
      s1.tx_in_bytes = max (s.tx_in_bytes + 1) T31_TX_BUF_LEN ∧
      s1.tx_out_bytes = s.tx_out_bytes ∧ s1.tx_holding = s.tx_holding ∧
      s1.data_final = s.data_final ∧ s1.at_rx_mode = s.at_rx_mode := by
  induction n with
  | zero =>
    intro s c rest _ _ h0 _
    exact absurd h0 (lt_irrefl 0)
  | succ k ih =>
    intro s c rest hc hd _ hb
    rw [List.replicate_succ, List.cons_append]
    by_cases hbc : T31_TX_BUF_LEN - 1 < (tx_store s c).tx_in_bytes
    · simp only [dle_unstuff_loop, hd, if_neg hc, if_pos hbc, Bool.false_eq_true, if_false]
      refine ⟨tx_store s c, rfl, by simp [hd], ?_, by simp, by simp, by simp, by simp⟩
      simp only [tx_store_tx_in] at hbc ⊢
      omega
    · have hk : 0 < k := by simp only [tx_store_tx_in] at hbc; omega
      simp only [dle_unstuff_loop, hd, if_neg hc, if_neg hbc, Bool.false_eq_true, if_false]
      obtain ⟨s1, h1, hd1, hin1, hout1, hhold1, hfin1, hmode1⟩ :=
        ih (tx_store s c) c rest hc (by simp [hd]) hk
          (by simp only [tx_store_tx_in] at hbc ⊢; omega)
      refine ⟨s1, h1, hd1, ?_, by rw [hout1, tx_store_tx_out],
        by rw [hhold1, tx_store_holding], by rw [hfin1, tx_store_final],
        by rw [hmode1, tx_store_mode]⟩
      simp only [tx_store_tx_in] at hin1 hbc
      omega

/-- Unstuffing the stuffed encoding of a payload that fits below the buffer
bound, followed by the DLE-ETX terminator: the loop fires the terminator
return with exactly the payload deposited. -/
lemma loop_stuff (x : List Nat) : ∀ (s : TxState), s.dled = false →
    s.tx_in_bytes + x.length ≤ T31_TX_BUF_LEN - 1 →
    ∃ s1, dle_unstuff_loop s (dle_stuff x ++ [DLE, ETX]) = .early s1 ∧
      s1.dled = false ∧ s1.data_final = true ∧ s1.at_rx_mode = .offhook_command ∧
      s1.tx_in_bytes = s.tx_in_bytes + x.length ∧
      s1.tx_out_bytes = s.tx_out_bytes ∧ s1.tx_holding = s.tx_holding ∧
      (∀ i, s.tx_in_bytes ≤ i → i < s.tx_in_bytes + x.length →
        s1.tx_data i = x.getD (i - s.tx_in_bytes) 0) ∧
      (∀ i, i < s.tx_in_bytes → s1.tx_data i = s.tx_data i) := by
  induction x with
  | nil =>
    intro s hd _
    refine ⟨{ s with dled := false, data_final := true, at_rx_mode := .offhook_command },
      ?_, rfl, rfl, rfl, by simp, rfl, rfl, ?_, ?_⟩
    · show dle_unstuff_loop s [DLE, ETX] = _
      simp [dle_unstuff_loop, hd]
    · intro i h1 h2
      simp only [List.length_nil] at h2
      omega
    · intro i _
      rfl
  | cons c r ih =>
    intro s hd hb
    simp only [List.length_cons] at hb
    by_cases hc : c = DLE
    · subst hc
      have hstuff : dle_stuff (DLE :: r) = DLE :: DLE :: dle_stuff r := by
        simp [dle_stuff]
      set s' : TxState := tx_store { s with dled := false } DLE with hs'
      have hnb : ¬ (T31_TX_BUF_LEN - 1 < s'.tx_in_bytes) := by
        simp only [hs', tx_store_tx_in]
        omega
      have key : dle_unstuff_loop s (dle_stuff (DLE :: r) ++ [DLE, ETX]) =
          dle_unstuff_loop s' (dle_stuff r ++ [DLE, ETX]) := by
        rw [hstuff]
        simp only [List.cons_append]
        conv in dle_unstuff_loop s _ => rw [dle_unstuff_loop]
        rw [if_neg (by rw [hd]; exact Bool.false_ne_true), if_pos rfl]
        rw [dle_unstuff_loop]
        rw [if_pos rfl, if_neg (by decide), if_neg (by exact hnb)]
      have hd' : s'.dled = false := by simp [hs']
      have hin' : s'.tx_in_bytes = s.tx_in_bytes + 1 := by simp [hs']
      obtain ⟨s1, h1, h2, h3, h4, h5, h6, h7, h8, h9⟩ :=
        ih s' hd' (by rw [hin']; omega)
      refine ⟨s1, by rw [key]; exact h1, h2, h3, h4,
        by simp only [List.length_cons]; omega, by simpa [hs'] using h6,
        by simpa [hs'] using h7, ?_, ?_⟩
      · intro i hge hlt
        simp only [List.length_cons] at hlt
        rcases Nat.lt_or_ge s.tx_in_bytes i with hgt | hle2
        · have := h8 i (by omega) (by omega)
          rw [this]
          have hidx : i - s.tx_in_bytes = (i - s'.tx_in_bytes) + 1 := by omega
          rw [hidx, List.getD_cons_succ]
        · have hieq : i = s.tx_in_bytes := by omega
          have := h9 i (by omega)
          rw [this, hieq]
          simp [hs', tx_store]
      · intro i hlt
        have := h9 i (by omega)
        rw [this]
        simp only [hs', tx_store_data]
        rw [Function.update_noteq (by simp; omega)]
    · have hstuff : dle_stuff (c :: r) = c :: dle_stuff r := by
        simp [dle_stuff, hc]
      set s' : TxState := tx_store s c with hs'
      have hnb : ¬ (T31_TX_BUF_LEN - 1 < s'.tx_in_bytes) := by
        simp only [hs', tx_store_tx_in]
        omega
      have key : dle_unstuff_loop s (dle_stuff (c :: r) ++ [DLE, ETX]) =
          dle_unstuff_loop s' (dle_stuff r ++ [DLE, ETX]) := by
        rw [hstuff]
        simp only [List.cons_append]
        rw [dle_unstuff_loop]
        rw [if_neg (by rw [hd]; exact Bool.false_ne_true), if_neg hc, if_neg (by exact hnb)]
      have hd' : s'.dled = false := by simp [hs', hd]
      have hin' : s'.tx_in_bytes = s.tx_in_bytes + 1 := by simp [hs']
      obtain ⟨s1, h1, h2, h3, h4, h5, h6, h7, h8, h9⟩ :=
        ih s' hd' (by rw [hin']; omega)
      refine ⟨s1, by rw [key]; exact h1, h2, h3, h4,
        by simp only [List.length_cons]; omega, by simpa [hs'] using h6,
        by simpa [hs'] using h7, ?_, ?_⟩
      · intro i hge hlt
        simp only [List.length_cons] at hlt
        rcases Nat.lt_or_ge s.tx_in_bytes i with hgt | hle2
        · have := h8 i (by omega) (by omega)
          rw [this]
          have hidx : i - s.tx_in_bytes = (i - s'.tx_in_bytes) + 1 := by omega
          rw [hidx, List.getD_cons_succ]
        · have hieq : i = s.tx_in_bytes := by omega
          have := h9 i (by omega)
          rw [this, hieq]
          simp [hs', tx_store]
      · intro i hlt
        have := h9 i (by omega)
        rw [this]
        simp only [hs', tx_store_data]
        rw [Function.update_noteq (by simp; omega)]

/-- Reading back a pointwise-known buffer prefix as a list. -/
lemma map_range_getD (x : List Nat) (f : Nat → Nat)
    (hf : ∀ i, i < x.length → f i = x.getD i 0) :
    (List.range x.length).map f = x := by
  apply List.ext_getElem (by simp)
  intro i h1 h2
  simp only [List.getElem_map, List.getElem_range]
  rw [hf i h2, List.getD_eq_getElem x 0 h2]

/-- Claim C4 (amended): for every payload x of fewer than T31_TX_BUF_LEN
bytes, running dle_unstuff from a fresh state on the DLE-stuffed encoding of
x followed by DLE ETX deposits exactly x into tx_data, sets data_final,
returns the DTE to command mode, and emits no flow-control event; neither
the doubling DLEs nor the terminator appear in the deposit.  (For payloads
of T31_TX_BUF_LEN bytes or more the loop hits the buffer bound and returns
before the terminator, so the unamended claim fails; see the
counterexample.) -/
theorem c4_dle_round_trip (x : List Nat) (h : x.length ≤ T31_TX_BUF_LEN - 1) :
    (dle_unstuff initTxState (dle_stuff x ++ [DLE, ETX])).2 = [] ∧
    (dle_unstuff initTxState (dle_stuff x ++ [DLE, ETX])).1.data_final = true ∧
    (dle_unstuff initTxState (dle_stuff x ++ [DLE, ETX])).1.at_rx_mode = .offhook_command ∧
    (dle_unstuff initTxState (dle_stuff x ++ [DLE, ETX])).1.tx_in_bytes = x.length ∧
    (List.range x.length).map (dle_unstuff initTxState (dle_stuff x ++ [DLE, ETX])).1.tx_data
      = x := by
  obtain ⟨s1, h1, _, h3, h4, h5, _, _, h8, _⟩ :=
    loop_stuff x initTxState rfl (by simpa [initTxState] using h)
  have hval : dle_unstuff initTxState (dle_stuff x ++ [DLE, ETX]) = (s1, []) := by
    rw [dle_unstuff, h1]
  rw [hval]
  refine ⟨rfl, h3, h4, by simpa [initTxState] using h5, ?_⟩
  apply map_range_getD
  intro i hi
  have := h8 i (by simp [initTxState]) (by simpa [initTxState] using hi)
  simpa [initTxState] using this

/-- Witness for c4_dle_round_trip at the two-byte payload 0x10 0x03. -/
theorem c4_dle_round_trip_witness :
    ([DLE, ETX].length ≤ T31_TX_BUF_LEN - 1) ∧
    ((dle_unstuff initTxState (dle_stuff [DLE, ETX] ++ [DLE, ETX])).2 = [] ∧
     (dle_unstuff initTxState (dle_stuff [DLE, ETX] ++ [DLE, ETX])).1.data_final = true ∧
     (dle_unstuff initTxState (dle_stuff [DLE, ETX] ++ [DLE, ETX])).1.at_rx_mode
        = .offhook_command ∧
     (dle_unstuff initTxState (dle_stuff [DLE, ETX] ++ [DLE, ETX])).1.tx_in_bytes
        = [DLE, ETX].length ∧
     (List.range [DLE, ETX].length).map
        (dle_unstuff initTxState (dle_stuff [DLE, ETX] ++ [DLE, ETX])).1.tx_data
        = [DLE, ETX]) :=
  ⟨by decide, c4_dle_round_trip [DLE, ETX] (by decide)⟩

/-- Stuffing a DLE-free constant sequence is the identity. -/
lemma dle_stuff_replicate (n : Nat) (c : Nat) (hc : c ≠ DLE) :
    dle_stuff (List.replicate n c) = List.replicate n c := by
  induction n with
  | zero => rfl
  | succ k ih => rw [List.replicate_succ, dle_stuff, if_neg hc, ih]

/-- Counterexample to claim C4 as stated: for the payload consisting of
T31_TX_BUF_LEN zero bytes, the unstuffer hits the buffer bound and returns
before consuming the DLE-ETX terminator, so data_final is never set. -/
theorem c4_counterexample :
    (dle_unstuff initTxState
      (dle_stuff (List.replicate T31_TX_BUF_LEN 0) ++ [DLE, ETX])).1.data_final = false := by
  rw [dle_stuff_replicate _ _ (by decide)]
  obtain ⟨s1, h1, _, _, _, _, hfin, _⟩ :=
    loop_replicate_overflow T31_TX_BUF_LEN initTxState 0 [DLE, ETX] (by decide) rfl
      (by decide) (by decide)
  rw [dle_unstuff, h1]
  exact hfin

/-- Claim C2: evaluation of the code at the failing input.  After one
t31_at_rx call in STUFFED mode delivers T31_TX_BUF_LEN plain bytes (filling
the ring exactly), a further call delivering one more byte performs the
C write tx_data[T31_TX_BUF_LEN] — one element past the end of the array —
and leaves tx_in_bytes = T31_TX_BUF_LEN + 1, violating the claimed invariant
tx_in_bytes ≤ T31_TX_BUF_LEN. -/
theorem c2_tx_in_bytes_overflow :
    (t31_at_rx_stuffed
        (t31_at_rx_stuffed initTxState (List.replicate T31_TX_BUF_LEN 1)).1
        (List.replicate 1 1)).1.tx_in_bytes = T31_TX_BUF_LEN + 1 := by
  obtain ⟨s1, h1, hd1, hin1, hout1, _, _, _⟩ :=
    loop_replicate_overflow T31_TX_BUF_LEN initTxState 1 [] (by decide) rfl
      (by decide) (by decide)
  rw [List.append_nil] at h1
  have hc1 : compact_tx initTxState = initTxState := by
    rw [compact_tx, if_neg (by simp [initTxState])]
  have hfirst : (t31_at_rx_stuffed initTxState (List.replicate T31_TX_BUF_LEN 1)).1 = s1 := by
    rw [t31_at_rx_stuffed, hc1, dle_unstuff, h1]
  rw [hfirst]
  have hc2 : compact_tx s1 = s1 := by
    rw [compact_tx, if_neg (by simp [hout1, initTxState])]
  obtain ⟨s2, h2, _, hin2, _, _, _, _⟩ :=
    loop_replicate_overflow 1 s1 1 [] (by decide) hd1 (by decide)
      (by rw [hin1]; simp only [initTxState]; omega)
  rw [List.append_nil] at h2
  have hlast : (t31_at_rx_stuffed s1 (List.replicate 1 1)).1 = s2 := by
    rw [t31_at_rx_stuffed, hc2, dle_unstuff, h2]
  rw [hlast, hin2, hin1]
  have h0 : initTxState.tx_in_bytes = 0 := rfl
  have hL : T31_TX_BUF_LEN = 16384 := rfl
  rw [h0]
  omega

/-- Claim C10: when the loop of dle_unstuff meets the DLE-ETX pair after a
prefix it processed without returning, it sets data_final, moves the DTE to
OFFHOOK_COMMAND mode and returns at once: all bytes after the terminator are
discarded (the result does not depend on q) and the trailing flow-control
check is skipped (no CTS event is emitted, whatever the fill level). -/
theorem c10_dle_etx_mid_block (s s' : TxState) (p q : List Nat)
    (hp : dle_unstuff_loop s p = .finished s') (hd : s'.dled = false) :
    dle_unstuff s (p ++ DLE :: ETX :: q) =
      ({ s' with dled := false, data_final := true, at_rx_mode := .offhook_command }, []) := by
  have h2 : dle_unstuff_loop s (p ++ DLE :: ETX :: q) =
      .early { s' with dled := false, data_final := true, at_rx_mode := .offhook_command } := by
    rw [dle_unstuff_loop_append p s s' _ hp]
    rw [dle_unstuff_loop]
    rw [if_neg (by rw [hd]; exact Bool.false_ne_true), if_pos rfl]
    rw [dle_unstuff_loop]
    rw [if_pos rfl, if_pos rfl]
  rw [dle_unstuff, h2]

/-- Witness for c10_dle_etx_mid_block with the empty prefix from the fresh
state and one trailing byte. -/
theorem c10_dle_etx_mid_block_witness :
    dle_unstuff_loop initTxState [] = .finished initTxState ∧
    initTxState.dled = false ∧
    dle_unstuff initTxState ([] ++ DLE :: ETX :: [9]) =
      ({ initTxState with dled := false, data_final := true, at_rx_mode := .offhook_command }, []) :=
  ⟨rfl, rfl, c10_dle_etx_mid_block initTxState initTxState [] [9] rfl rfl⟩

/-- restart_modem always leaves the read index zeroed unless it is a no-op. -/
lemma restart_modem_tx_tx_out (s : TxState) (m : Int) :
    (restart_modem_tx s m).tx_out_bytes = if s.modem = m then s.tx_out_bytes else 0 := by
  rw [restart_modem_tx]
  split_ifs <;> rfl

/-- Claim C7 as stated: in every reachable state, CTS is deasserted exactly
when dle_unstuff completes its input seeing tx_in_bytes above
T31_TX_BUF_LEN - 1024 while not already holding, and CTS is asserted only
when tx_out_bytes has advanced past 1024 while holding. -/
def claimC7Prop : Prop :=
  ∀ s, TxReachable s → ∀ e,
    (CtsEvent.deassert ∈ (txStep s e).2 ↔
      ∃ b s1, e = TxEvent.atRx b ∧ dle_unstuff_loop (compact_tx s) b = .finished s1 ∧
        s1.tx_holding = false ∧ T31_TX_BUF_LEN - 1024 < s1.tx_in_bytes) ∧
    (CtsEvent.assert ∈ (txStep s e).2 →
      s.tx_holding = true ∧ 1024 < (txStep s e).1.tx_out_bytes)

/-- Counterexample to claim C7 as stated: fill the ring past the
back-pressure threshold (15361 bytes), so tx_holding is set with
tx_out_bytes = 0; an ONHOOK modem-control event then asserts CTS although
tx_out_bytes is 0, not past 1024 (t31.c lines 676-682). -/
theorem c7_counterexample : ¬ claimC7Prop := by
  intro h
  obtain ⟨s1, h1, hd1, hin1, hout1, hhold1, hfin1, hmode1⟩ :=
    loop_replicate_fits 15361 initTxState 1 (by decide) rfl (by decide)
  have hcomp : compact_tx initTxState = initTxState := by
    rw [compact_tx, if_neg (by simp [initTxState])]
  have hstep : txStep initTxState (TxEvent.atRx (List.replicate 15361 1)) =
      ({ s1 with tx_holding := true }, [CtsEvent.deassert]) := by
    show t31_at_rx_stuffed initTxState (List.replicate 15361 1) = _
    rw [t31_at_rx_stuffed, hcomp]
    have hmatch : dle_unstuff initTxState (List.replicate 15361 1) =
        (if s1.tx_holding = false ∧ T31_TX_BUF_LEN - 1024 < s1.tx_in_bytes then
          ({ s1 with tx_holding := true }, [CtsEvent.deassert]) else (s1, [])) := by
      rw [dle_unstuff, h1]
    rw [hmatch, if_pos ⟨by rw [hhold1]; rfl, by rw [hin1]; decide⟩]
  have hreach : TxReachable { s1 with tx_holding := true } :=
    Relation.ReflTransGen.single ⟨TxEvent.atRx (List.replicate 15361 1), by rw [hstep]⟩
  have hassert : CtsEvent.assert ∈ (txStep { s1 with tx_holding := true } TxEvent.onhook).2 := by
    show CtsEvent.assert ∈ (onhook_step { s1 with tx_holding := true }).2
    rw [onhook_step, if_pos rfl]
    exact List.mem_singleton.mpr rfl
  have hout0 : (txStep { s1 with tx_holding := true } TxEvent.onhook).1.tx_out_bytes = 0 := by
    show (onhook_step { s1 with tx_holding := true }).1.tx_out_bytes = 0
    rw [onhook_step, if_pos rfl]
    show (restart_modem_tx { s1 with tx_holding := false } T31_SILENCE_TX).tx_out_bytes = 0
    rw [restart_modem_tx_tx_out]
    split_ifs <;> simp [hout1, initTxState]
  have hclaim := (h { s1 with tx_holding := true } hreach TxEvent.onhook).2 hassert
  rw [hout0] at hclaim
  exact absurd hclaim.2 (by decide)

/-- Claim C7 (amended): across every transmit-ring event, CTS is deasserted
exactly when a dle_unstuff call completes its input (no early return) seeing
tx_in_bytes above T31_TX_BUF_LEN - 1024 while not already holding; CTS is
asserted exactly when non_ecm_get_bit draws a byte (byte boundary, data
available) while holding with the advanced read index past 1024, or when the
ONHOOK modem-control event runs while holding.  The ONHOOK disjunct is the
correction forced by the counterexample. -/
theorem c7_cts_flow_control (s : TxState) (e : TxEvent) :
    (CtsEvent.deassert ∈ (txStep s e).2 ↔
      ∃ b s1, e = TxEvent.atRx b ∧ dle_unstuff_loop (compact_tx s) b = .finished s1 ∧
        s1.tx_holding = false ∧ T31_TX_BUF_LEN - 1024 < s1.tx_in_bytes) ∧
    (CtsEvent.assert ∈ (txStep s e).2 ↔
      (e = TxEvent.getBit ∧ s.bit_no = 0 ∧ s.tx_out_bytes ≠ s.tx_in_bytes ∧
        s.tx_holding = true ∧ 1024 < (txStep s e).1.tx_out_bytes) ∨
      (e = TxEvent.onhook ∧ s.tx_holding = true)) := by
  cases e with
  | atRx b =>
    have key : txStep s (TxEvent.atRx b) = dle_unstuff (compact_tx s) b := rfl
    rw [key]
    cases hres : dle_unstuff_loop (compact_tx s) b with
    | finished s1 =>
      have hval : dle_unstuff (compact_tx s) b =
          (if s1.tx_holding = false ∧ T31_TX_BUF_LEN - 1024 < s1.tx_in_bytes then
            ({ s1 with tx_holding := true }, [CtsEvent.deassert]) else (s1, [])) := by
        rw [dle_unstuff, hres]
      rw [hval]
      by_cases hcond : s1.tx_holding = false ∧ T31_TX_BUF_LEN - 1024 < s1.tx_in_bytes
      · rw [if_pos hcond]
        refine ⟨⟨fun _ => ⟨b, s1, rfl, hres, hcond.1, hcond.2⟩, fun _ => by simp⟩, ?_, ?_⟩
        · intro hmem
          simp at hmem
        · rintro (⟨he, _⟩ | ⟨he, _⟩) <;> cases he
      · rw [if_neg hcond]
        refine ⟨⟨fun hmem => by simp at hmem, ?_⟩, fun hmem => by simp at hmem, ?_⟩
        · rintro ⟨b', s1', hb, hloop, hh, hi⟩
          injection hb with hbb
          subst hbb
          rw [hres] at hloop
          injection hloop with hs
          subst hs
          exact absurd ⟨hh, hi⟩ hcond
        · rintro (⟨he, _⟩ | ⟨he, _⟩) <;> cases he
    | early s1 =>
      have hval : dle_unstuff (compact_tx s) b = (s1, []) := by rw [dle_unstuff, hres]
      rw [hval]
      refine ⟨⟨fun hmem => by simp at hmem, ?_⟩, fun hmem => by simp at hmem, ?_⟩
      · rintro ⟨b', s1', hb, hloop, _, _⟩
        injection hb with hbb
        subst hbb
        rw [hres] at hloop
        cases hloop
      · rintro (⟨he, _⟩ | ⟨he, _⟩) <;> cases he
  | getBit =>
    constructor
    · refine ⟨fun hmem => ?_, fun hr => ?_⟩
      · exfalso
        revert hmem
        show CtsEvent.deassert ∈ (non_ecm_get_bit s).2.2 → False
        simp only [non_ecm_get_bit]
        split_ifs <;> simp
      · obtain ⟨b', s1', hb, _, _, _⟩ := hr
        cases hb
    · show CtsEvent.assert ∈ (non_ecm_get_bit s).2.2 ↔
        (TxEvent.getBit = TxEvent.getBit ∧ s.bit_no = 0 ∧ s.tx_out_bytes ≠ s.tx_in_bytes ∧
          s.tx_holding = true ∧ 1024 < (non_ecm_get_bit s).2.1.tx_out_bytes) ∨
        (TxEvent.getBit = TxEvent.onhook ∧ s.tx_holding = true)
      simp only [non_ecm_get_bit]
      split_ifs with h1 h2 h3 h4 <;> simp_all
  | onhook =>
    constructor
    · show CtsEvent.deassert ∈ (onhook_step s).2 ↔ _
      rw [onhook_step]
      split_ifs <;>
        exact ⟨fun hmem => by simp at hmem, fun hr => by obtain ⟨b', s1', hb, _⟩ := hr; cases hb⟩
    · show CtsEvent.assert ∈ (onhook_step s).2 ↔ _
      rw [onhook_step]
      split_ifs with hh <;> simp_all
  | restart m =>
    refine ⟨⟨fun hmem => by simp [txStep] at hmem, ?_⟩,
      fun hmem => by simp [txStep] at hmem, ?_⟩
    · rintro ⟨b', s1', hb, _, _, _⟩
      cases hb
    · rintro (⟨he, _⟩ | ⟨he, _⟩) <;> cases he

/-! ## T.38 indicators (enumeration order fixed by the training-time table
comments of t31.c lines 433-455) -/

inductive T38Ind where
  | no_signal
  | cng
  | ced
  | v21_preamble
  | v27ter_2400_training
  | v27ter_4800_training
  | v29_7200_training
  | v29_9600_training
  | v17_7200_short_training
  | v17_7200_long_training
  | v17_9600_short_training
  | v17_9600_long_training
  | v17_12000_short_training
  | v17_12000_long_training
  | v17_14400_short_training
  | v17_14400_long_training
  | v8_ansam
  | v8_signal
  | v34_cntl_channel_1200
  | v34_pri_channel
  | v34_cc_retrain
  | v33_12000_training
  | v33_14400_training
deriving DecidableEq, Repr

/-! ## T.38 receive-side indicator handler (claim C6) -/

/-- The t31_state_t fields touched or read by process_rx_indicator. -/
structure IndRxState where
  current_rx_type : Int
  samples : Nat
  timeout_rx_samples : Nat
  hdlc_rx_len : Nat
  missing_data : Bool
deriving DecidableEq, Repr

/-- process_rx_indicator (t31.c lines 161-262).  The first argument is the
T.38 core field current_rx_indicator against which repeats are detected.  A
repeated indicator is ignored outright; otherwise the switch arms the
mid-burst timeout for training indicators and clears it for NO_SIGNAL, and
the HDLC reassembly is always reset at the end. -/
def process_rx_indicator (cur : T38Ind) (s : IndRxState) (ind : T38Ind) : IndRxState :=
  if cur = ind then s
  else
    let s1 :=
      match ind with
      | .no_signal => { s with timeout_rx_samples := 0 }
      | .cng => s
      | .ced => s
      | .v21_preamble =>
        { s with timeout_rx_samples := s.samples + ms_to_samples MID_RX_TIMEOUT }
      | .v27ter_2400_training =>
        { s with timeout_rx_samples := s.samples + ms_to_samples MID_RX_TIMEOUT }
      | .v27ter_4800_training =>
        { s with timeout_rx_samples := s.samples + ms_to_samples MID_RX_TIMEOUT }
      | .v29_7200_training =>
        { s with timeout_rx_samples := s.samples + ms_to_samples MID_RX_TIMEOUT }
      | .v29_9600_training =>
        { s with timeout_rx_samples := s.samples + ms_to_samples MID_RX_TIMEOUT }
      | .v17_7200_short_training =>
        { s with timeout_rx_samples := s.samples + ms_to_samples MID_RX_TIMEOUT }
      | .v17_7200_long_training =>
        { s with timeout_rx_samples := s.samples + ms_to_samples MID_RX_TIMEOUT }
      | .v17_9600_short_training =>
        { s with timeout_rx_samples := s.samples + ms_to_samples MID_RX_TIMEOUT }
      | .v17_9600_long_training =>
        { s with timeout_rx_samples := s.samples + ms_to_samples MID_RX_TIMEOUT }
      | .v17_12000_short_training =>
        { s with timeout_rx_samples := s.samples + ms_to_samples MID_RX_TIMEOUT }
      | .v17_12000_long_training =>
        { s with timeout_rx_samples := s.samples + ms_to_samples MID_RX_TIMEOUT }
      | .v17_14400_short_training =>
        { s with timeout_rx_samples := s.samples + ms_to_samples MID_RX_TIMEOUT }
      | .v17_14400_long_training =>
        { s with timeout_rx_samples := s.samples + ms_to_samples MID_RX_TIMEOUT }
      | .v33_12000_training =>
        { s with timeout_rx_samples := s.samples + ms_to_samples MID_RX_TIMEOUT }
      | .v33_14400_training =>
        { s with timeout_rx_samples := s.samples + ms_to_samples MID_RX_TIMEOUT }
      | .v8_ansam => s
      | .v8_signal => s
      | .v34_cntl_channel_1200 => s
      | .v34_pri_channel => s
      | .v34_cc_retrain => s
    { s1 with hdlc_rx_len := 0, missing_data := false }

/-- Modelled from the spec: after dispatching a received indicator to the
handler, the T.38 core (outside the provided source) records it as
current_rx_indicator, which is how the handler's repeat test (spec section
4.6, peer repetition) can fire on the next identical indicator. -/
def t38_rx_indicator (p : T38Ind × IndRxState) (ind : T38Ind) : T38Ind × IndRxState :=
  (ind, process_rx_indicator p.1 p.2 ind)

/-- Claim C6: receiving the same indicator twice in a row leaves the receiver
exactly as after receiving it once; in particular a handler call that sees
the indicator equal to the recorded current one changes no state at all
(timeout_rx_samples, hdlc_rx_len and missing_data included). -/
theorem c6_indicator_idempotent (p : T38Ind × IndRxState) (ind : T38Ind) :
    t38_rx_indicator (t38_rx_indicator p ind) ind = t38_rx_indicator p ind ∧
    (∀ st : IndRxState, process_rx_indicator ind st ind = st) := by
  constructor
  · show (ind, process_rx_indicator ind (process_rx_indicator p.1 p.2 ind) ind) = _
    rw [process_rx_indicator.eq_def, if_pos rfl]
    rfl
  · intro st
    rw [process_rx_indicator.eq_def, if_pos rfl]

/-! ## T.38 receive-side data handler (claim C1) -/

/-- T.38 data field types (t38_core.h names used by t31.c). -/
inductive T38Field where
  | hdlc_data
  | hdlc_fcs_ok
  | hdlc_fcs_bad
  | hdlc_fcs_ok_sig_end
  | hdlc_fcs_bad_sig_end
  | hdlc_sig_end
  | t4_non_ecm_data
  | t4_non_ecm_sig_end
  | cm_message
  | jm_message
  | ci_message
  | v34rate
deriving DecidableEq, Repr

/-- Bit reversal of one octet, the bit_reverse primitive of
bit_operations.h as a pure function on bytes. -/
def bit_reverse8 (b : Nat) : Nat :=
  (b % 2) * 128 + (b / 2 % 2) * 64 + (b / 4 % 2) * 32 + (b / 8 % 2) * 16 +
  (b / 16 % 2) * 8 + (b / 32 % 2) * 4 + (b / 64 % 2) * 2 + (b / 128 % 2)

/-- Write the bit-reversed chunk into the reassembly buffer at an offset, as
bit_reverse(s->hdlc_rx_buf + s->hdlc_rx_len, buf, len) does. -/
def write_reversed (buf : Nat → Nat) (off : Nat) (chunk : List Nat) : Nat → Nat :=
  fun i => if off ≤ i ∧ i < off + chunk.length then bit_reverse8 (chunk.getD (i - off) 0)
           else buf i

/-- The t31_state_t fields touched or read by process_rx_data. -/
structure RxDataState where
  current_rx_type : Int
  samples : Nat
  timeout_rx_samples : Nat
  hdlc_rx_buf : Nat → Nat
  hdlc_rx_len : Nat
  missing_data : Bool
  rx_signal_present : Bool
  tx_out_bytes : Nat

/-- Calls process_rx_data makes into hdlc_accept, treated as observable
events at the module boundary. -/
inductive HdlcRxEvent where
  | deliver (frame : List Nat) (ok : Bool)
  | carrierDown
deriving DecidableEq, Repr

/-- process_rx_data (t31.c lines 265-413).  The core fields
current_rx_data_type/current_rx_field_type used by the SIG_END
deduplication are passed in as they stand when the handler runs. -/
def process_rx_data (s : RxDataState) (core_rx_data_type : Int)
    (core_rx_field_type : Option T38Field) (data_type : Int) (field_type : T38Field)
    (buf : List Nat) : RxDataState × List HdlcRxEvent :=
  match field_type with
  | .hdlc_data =>
    let s1 :=
      if s.timeout_rx_samples = 0 then
        { s with timeout_rx_samples := s.samples + ms_to_samples MID_RX_TIMEOUT,
                 missing_data := if buf.getD 0 0 ≠ 0xFF then true else s.missing_data }
      else s
    let s2 :=
      if s1.hdlc_rx_len + buf.length ≤ 256 - 2 then
        { s1 with hdlc_rx_buf := write_reversed s1.hdlc_rx_buf s1.hdlc_rx_len buf,
                  hdlc_rx_len := s1.hdlc_rx_len + buf.length }
      else s1
    ({ s2 with timeout_rx_samples := s2.samples + ms_to_samples MID_RX_TIMEOUT }, [])
  | .hdlc_fcs_ok =>
    ({ s with hdlc_rx_len := 0, missing_data := false },
     if s.current_rx_type = T31_V21_RX ∧ 0 < s.tx_out_bytes ∧ s.missing_data = false then
       [HdlcRxEvent.deliver ((List.range s.hdlc_rx_len).map s.hdlc_rx_buf) true]
     else [])
  | .hdlc_fcs_bad =>
    ({ s with hdlc_rx_len := 0, missing_data := false }, [])
  | .hdlc_fcs_ok_sig_end =>
    ({ s with tx_out_bytes := 0, missing_data := false, hdlc_rx_len := 0 },
     if s.current_rx_type = T31_V21_RX then
       (if 0 < s.tx_out_bytes then
         [HdlcRxEvent.deliver ((List.range s.hdlc_rx_len).map s.hdlc_rx_buf) true,
          HdlcRxEvent.carrierDown]
        else [HdlcRxEvent.carrierDown])
     else [])
  | .hdlc_fcs_bad_sig_end =>
    ({ s with hdlc_rx_len := 0, missing_data := false },
     if s.current_rx_type = T31_V21_RX then [HdlcRxEvent.carrierDown] else [])
  | .hdlc_sig_end =>
    ({ s with hdlc_rx_len := 0, missing_data := false },
     if s.current_rx_type = T31_V21_RX then [HdlcRxEvent.carrierDown] else [])
  | .t4_non_ecm_data =>
    let s1 := if s.rx_signal_present = false then { s with rx_signal_present := true } else s
    ({ s1 with timeout_rx_samples := s1.samples + ms_to_samples MID_RX_TIMEOUT }, [])
  | .t4_non_ecm_sig_end =>
    let s1 :=
      if core_rx_data_type ≠ data_type ∨ core_rx_field_type ≠ some T38Field.t4_non_ecm_sig_end then
        (if 0 < buf.length then
          (if s.rx_signal_present = false then { s with rx_signal_present := true } else s)
         else s)
      else s
    ({ s1 with rx_signal_present := false, timeout_rx_samples := 0 }, [])
  | .cm_message => (s, [])
  | .jm_message => (s, [])
  | .ci_message => (s, [])
  | .v34rate => (s, [])

/-- State for the first half of the C1 evaluation: V.21 receive, a 3-octet
reassembled frame, no missing data, but the transmit-ring read index at 0. -/
def c1_state_a : RxDataState :=
  { current_rx_type := T31_V21_RX, samples := 0, timeout_rx_samples := 5,
    hdlc_rx_buf := fun _ => 0, hdlc_rx_len := 3, missing_data := false,
    rx_signal_present := false, tx_out_bytes := 0 }

/-- State for the second half of the C1 evaluation: an empty reassembled
frame but a nonzero transmit-ring read index. -/
def c1_state_b : RxDataState :=
  { current_rx_type := T31_V21_RX, samples := 0, timeout_rx_samples := 5,
    hdlc_rx_buf := fun _ => 0, hdlc_rx_len := 0, missing_data := false,
    rx_signal_present := false, tx_out_bytes := 5 }

/-- Claim C1: evaluation of the code at the failing input.  The FCS_OK guard
of process_rx_data tests tx_out_bytes, not hdlc_rx_len: with a 3-octet
reassembled frame, no missing data and the receiver in V21_RX (exactly the
claim's delivery conditions) no frame is delivered because tx_out_bytes is
0; conversely with hdlc_rx_len = 0 and tx_out_bytes = 5 a zero-length frame
is delivered, although the code's own comment says zero-length frames must
not be dealt with.  The buffer reset half of the claim does hold. -/
theorem c1_fcs_ok_guard_eval :
    ((process_rx_data c1_state_a 0 none 0 T38Field.hdlc_fcs_ok []).2 = [] ∧
      c1_state_a.hdlc_rx_len = 3 ∧ c1_state_a.missing_data = false ∧
      c1_state_a.current_rx_type = T31_V21_RX) ∧
    ((process_rx_data c1_state_b 0 none 0 T38Field.hdlc_fcs_ok []).2 =
        [HdlcRxEvent.deliver [] true] ∧ c1_state_b.hdlc_rx_len = 0) ∧
    ((process_rx_data c1_state_a 0 none 0 T38Field.hdlc_fcs_ok []).1.hdlc_rx_len = 0 ∧
      (process_rx_data c1_state_a 0 none 0 T38Field.hdlc_fcs_ok []).1.missing_data = false) := by
  refine ⟨⟨?_, rfl, rfl, rfl⟩, ⟨?_, rfl⟩, rfl, rfl⟩
  · rw [process_rx_data, if_neg (by decide)]
  · rw [process_rx_data, if_pos (by refine ⟨rfl, by decide, rfl⟩)]
    rfl

/-! ## Adaptive early-RX (claim C5) -/

/-- The receive-handler function pointers t31.c installs. -/
inductive RxHandlerKind where
  | early_v17
  | early_v27ter
  | early_v29
  | v17
  | v27ter
  | v29
  | fsk_v21
  | dummy
deriving DecidableEq, Repr

/-- The t31_state_t fields the early-RX switchers touch: the two receiver
phase flags (updated behind the scenes by the demodulator callbacks
non_ecm_put_bit and hdlc_accept) and the installed rx_handler. -/
structure EarlyRxState where
  rx_trained : Bool
  rx_message_received : Bool
  rx_handler : RxHandlerKind
deriving DecidableEq, Repr

/-- early_v17_rx (t31.c lines 1668-1695).  The fast-modem feed (v17_rx) and
the V.21 feed (fsk_rx) are external DSP calls whose effect on the phase
flags, via their bit callbacks, is abstracted as the functions fast and
fsk; neither callback path writes rx_handler, which the theorem assumes as
a hypothesis on them. -/
def early_v17_rx (fast fsk : EarlyRxState → EarlyRxState) (s : EarlyRxState) : EarlyRxState :=
  let s1 := fast s
  if s1.rx_trained = true then { s1 with rx_handler := .v17 }
  else
    let s2 := fsk s1
    if s2.rx_message_received = true then { s2 with rx_handler := .fsk_v21 }
    else s2

/-- early_v27ter_rx (t31.c lines 1698-1725), as early_v17_rx. -/
def early_v27ter_rx (fast fsk : EarlyRxState → EarlyRxState) (s : EarlyRxState) : EarlyRxState :=
  let s1 := fast s
  if s1.rx_trained = true then { s1 with rx_handler := .v27ter }
  else
    let s2 := fsk s1
    if s2.rx_message_received = true then { s2 with rx_handler := .fsk_v21 }
    else s2

/-- early_v29_rx (t31.c lines 1728-1755), as early_v17_rx. -/
def early_v29_rx (fast fsk : EarlyRxState → EarlyRxState) (s : EarlyRxState) : EarlyRxState :=
  let s1 := fast s
  if s1.rx_trained = true then { s1 with rx_handler := .v29 }
  else
    let s2 := fsk s1
    if s2.rx_message_received = true then { s2 with rx_handler := .fsk_v21 }
    else s2

/-- Claim C5: each early-RX handler locks onto the fast modem alone when the
fast modem trains, else onto V.21 alone when V.21 has delivered a message,
and otherwise leaves rx_handler unchanged, for every pair of DSP feed
effects that do not themselves touch rx_handler. -/
theorem c5_early_rx_switch (fast fsk : EarlyRxState → EarlyRxState)
    (hfast : ∀ t, (fast t).rx_handler = t.rx_handler)
    (hfsk : ∀ t, (fsk t).rx_handler = t.rx_handler) (s : EarlyRxState) :
    ((fast s).rx_trained = true →
      (early_v17_rx fast fsk s).rx_handler = .v17 ∧
      (early_v27ter_rx fast fsk s).rx_handler = .v27ter ∧
      (early_v29_rx fast fsk s).rx_handler = .v29) ∧
    ((fast s).rx_trained = false → (fsk (fast s)).rx_message_received = true →
      (early_v17_rx fast fsk s).rx_handler = .fsk_v21 ∧
      (early_v27ter_rx fast fsk s).rx_handler = .fsk_v21 ∧
      (early_v29_rx fast fsk s).rx_handler = .fsk_v21) ∧
    ((fast s).rx_trained = false → (fsk (fast s)).rx_message_received = false →
      (early_v17_rx fast fsk s).rx_handler = s.rx_handler ∧
      (early_v27ter_rx fast fsk s).rx_handler = s.rx_handler ∧
      (early_v29_rx fast fsk s).rx_handler = s.rx_handler) := by
  refine ⟨?_, ?_, ?_⟩
  · intro ht
    refine ⟨?_, ?_, ?_⟩ <;> simp [early_v17_rx, early_v27ter_rx, early_v29_rx, ht]
  · intro ht hm
    refine ⟨?_, ?_, ?_⟩ <;>
      simp [early_v17_rx, early_v27ter_rx, early_v29_rx, ht, hm]
  · intro ht hm
    refine ⟨?_, ?_, ?_⟩ <;>
      simp [early_v17_rx, early_v27ter_rx, early_v29_rx, ht, hm, hfsk, hfast]

/-- Witness for c5_early_rx_switch with identity DSP feeds and a quiescent
state: neither flag set means the handler is left alone. -/
theorem c5_early_rx_switch_witness :
    (early_v17_rx id id
      { rx_trained := false, rx_message_received := false,
        rx_handler := RxHandlerKind.early_v17 }).rx_handler = RxHandlerKind.early_v17 :=
  ((c5_early_rx_switch id id (fun _ => rfl) (fun _ => rfl)
    { rx_trained := false, rx_message_received := false,
      rx_handler := RxHandlerKind.early_v17 }).2.2 rfl rfl).1

/-! ## Sample harness receive path (claim C9) -/

/-- The t31_state_t fields touched or read by the t31_rx timeout logic. -/
structure RxState where
  call_samples : Nat
  dte_data_timeout : Nat
  at_rx_mode : AtMode
  modem : Int
  transmit : Bool
  silence_heard : Nat
  last_sample : Int
deriving DecidableEq, Repr

/-- restart_modem specialized to SILENCE_TX as t31_rx invokes it, on the
fields of this state: a no-op if already in SILENCE_TX, otherwise the new
role with at_state.transmit cleared (both analog and T.38 paths); the
dte_data_timeout deadline is never touched by restart_modem. -/
def restart_modem_silence_tx (s : RxState) : RxState :=
  if s.modem = T31_SILENCE_TX then s
  else { s with modem := T31_SILENCE_TX, transmit := false }

/-- t31_rx (t31.c lines 1758-1801).  The per-sample power-meter loop only
touches the silence detector fields through external DSP calls and is
abstracted as the function f; then call_samples advances by the block
length, the DTE-inactivity deadline is checked (emitting ERROR, moving the
DTE to OFFHOOK_COMMAND and restarting to SILENCE_TX when exceeded — without
clearing the deadline), and finally whether rx_handler would run is
reported as the Bool component. -/
def t31_rx (f : RxState → RxState) (s : RxState) (len : Nat) : RxState × List Resp × Bool :=
  if (f s).dte_data_timeout ≠ 0 ∧ (f s).dte_data_timeout < (f s).call_samples + len then
    (restart_modem_silence_tx
       { f s with call_samples := (f s).call_samples + len, at_rx_mode := .offhook_command },
     [Resp.error],
     if (restart_modem_silence_tx
          { f s with call_samples := (f s).call_samples + len,
                     at_rx_mode := .offhook_command }).transmit = false ∨
        (restart_modem_silence_tx
          { f s with call_samples := (f s).call_samples + len,
                     at_rx_mode := .offhook_command }).modem = T31_CNG_TONE
     then true else false)
  else
    ({ f s with call_samples := (f s).call_samples + len },
     [],
     if ({ f s with call_samples := (f s).call_samples + len } : RxState).transmit = false ∨
        ({ f s with call_samples := (f s).call_samples + len } : RxState).modem = T31_CNG_TONE
     then true else false)

/-- Field bookkeeping for the SILENCE_TX restart. -/
lemma restart_modem_silence_tx_fields (s : RxState) :
    (restart_modem_silence_tx s).modem = T31_SILENCE_TX ∧
    (restart_modem_silence_tx s).call_samples = s.call_samples ∧
    (restart_modem_silence_tx s).dte_data_timeout = s.dte_data_timeout ∧
    (restart_modem_silence_tx s).at_rx_mode = s.at_rx_mode := by
  rw [restart_modem_silence_tx]
  split_ifs with h <;> simp [h]

/-- Claim C9: when the armed DTE-inactivity deadline is exceeded, t31_rx
emits ERROR, returns the DTE to OFFHOOK_COMMAND, restarts to SILENCE_TX and
leaves the deadline armed and unchanged, so every subsequent t31_rx call
emits a further ERROR (the power-meter loop f touches neither the sample
counter nor the deadline). -/
theorem c9_dte_timeout_repeats (f : RxState → RxState)
    (hf : ∀ t, (f t).call_samples = t.call_samples ∧
          (f t).dte_data_timeout = t.dte_data_timeout)
    (s : RxState) (len : Nat)
    (harm : s.dte_data_timeout ≠ 0)
    (hex : s.dte_data_timeout < s.call_samples + len) :
    Resp.error ∈ (t31_rx f s len).2.1 ∧
    (t31_rx f s len).1.at_rx_mode = .offhook_command ∧
    (t31_rx f s len).1.modem = T31_SILENCE_TX ∧
    (t31_rx f s len).1.dte_data_timeout = s.dte_data_timeout ∧
    (∀ len2, Resp.error ∈ (t31_rx f (t31_rx f s len).1 len2).2.1) := by
  have hcond : (f s).dte_data_timeout ≠ 0 ∧
      (f s).dte_data_timeout < (f s).call_samples + len := by
    rw [(hf s).1, (hf s).2]
    exact ⟨harm, hex⟩
  have hval : (t31_rx f s len).1 = restart_modem_silence_tx
      { f s with call_samples := (f s).call_samples + len,
                 at_rx_mode := .offhook_command } ∧
      (t31_rx f s len).2.1 = [Resp.error] := by
    rw [t31_rx, if_pos hcond]
    exact ⟨rfl, rfl⟩
  obtain ⟨hr1, hr2⟩ := hval
  obtain ⟨hm, hc, hd, ha⟩ := restart_modem_silence_tx_fields
    { f s with call_samples := (f s).call_samples + len, at_rx_mode := .offhook_command }
  refine ⟨by rw [hr2]; exact List.mem_singleton.mpr rfl, by rw [hr1, ha], by rw [hr1, hm],
    by rw [hr1, hd]; exact (hf s).2, ?_⟩
  intro len2
  have hcond2 : (f (t31_rx f s len).1).dte_data_timeout ≠ 0 ∧
      (f (t31_rx f s len).1).dte_data_timeout <
        (f (t31_rx f s len).1).call_samples + len2 := by
    rw [(hf _).1, (hf _).2, hr1]
    constructor
    · rw [hd]
      show (f s).dte_data_timeout ≠ 0
      exact hcond.1
    · rw [hd, hc]
      show (f s).dte_data_timeout < ((f s).call_samples + len) + len2
      have hx := hcond.2
      omega
  rw [t31_rx, if_pos hcond2]
  exact List.mem_singleton.mpr rfl

/-- Witness for c9_dte_timeout_repeats: identity power-meter effect, deadline
armed at one sample, a sixteen-sample block. -/
theorem c9_dte_timeout_repeats_witness :
    ((1 : Nat) ≠ 0 ∧ (1 : Nat) < 0 + 16) ∧
    (Resp.error ∈ (t31_rx id
      { call_samples := 0, dte_data_timeout := 1, at_rx_mode := .hdlc,
        modem := T31_V21_TX, transmit := true, silence_heard := 0,
        last_sample := 0 } 16).2.1) :=
  ⟨⟨by decide, by decide⟩,
   (c9_dte_timeout_repeats id (fun _ => ⟨rfl, rfl⟩)
     { call_samples := 0, dte_data_timeout := 1, at_rx_mode := .hdlc,
       modem := T31_V21_TX, transmit := true, silence_heard := 0,
       last_sample := 0 } 16 (by decide) (by decide)).1⟩

/-! ## AT Class-1 numeric dispatcher (claim C3) -/

/-- The t31_state_t fields driven by the numeric branch of
process_class1_cmd. -/
structure Class1State where
  modem : Int
  short_train : Bool
  bit_rate : Nat
  at_rx_mode : AtMode
deriving DecidableEq, Repr

/-- The state updates every recognized numeric Class-1 code performs before
restart_modem (t31.c lines 1491-1563): record short_train and bit_rate, and
enter STUFFED mode when transmitting or DELIVERY mode otherwise. -/
def class1_mode_set (s : Class1State) (new_transmit : Bool) (st : Bool) (rate : Nat) :
    Class1State :=
  { s with short_train := st, bit_rate := rate,
           at_rx_mode := (if new_transmit then AtMode.stuffed else AtMode.delivery) }

/-- The common tail of the numeric branch of process_class1_cmd (t31.c lines
1554-1566): the direction picks the TX or RX role, a CONNECT response is
emitted when transmitting, and restart_modem installs the new role (a no-op
when the role is unchanged; either way the resulting role is the new one).
The returned Int is immediate_response, FALSE. -/
def class1_select (s : Class1State) (new_transmit : Bool) (txm rxm : Int) (st : Bool)
    (rate : Nat) : Int × Class1State × List Resp :=
  (0,
   (if (class1_mode_set s new_transmit st rate).modem = (if new_transmit then txm else rxm) then
      class1_mode_set s new_transmit st rate
    else
      { class1_mode_set s new_transmit st rate with
        modem := (if new_transmit then txm else rxm) }),
   if new_transmit then [Resp.connect] else [])

/-- The default-operation switch of process_class1_cmd (t31.c lines
1488-1566): the numeric Class-1 code selects modem family, bit rate and
short-train; an unknown code returns -1 before touching any state. -/
def process_class1_cmd_num (s : Class1State) (new_transmit : Bool) (val : Nat) :
    Int × Class1State × List Resp :=
  if val = 24 then class1_select s new_transmit T31_V27TER_TX T31_V27TER_RX false 2400
  else if val = 48 then class1_select s new_transmit T31_V27TER_TX T31_V27TER_RX false 4800
  else if val = 72 then class1_select s new_transmit T31_V29_TX T31_V29_RX false 7200
  else if val = 96 then class1_select s new_transmit T31_V29_TX T31_V29_RX false 9600
  else if val = 73 then class1_select s new_transmit T31_V17_TX T31_V17_RX false 7200
  else if val = 74 then class1_select s new_transmit T31_V17_TX T31_V17_RX true 7200
  else if val = 97 then class1_select s new_transmit T31_V17_TX T31_V17_RX false 9600
  else if val = 98 then class1_select s new_transmit T31_V17_TX T31_V17_RX true 9600
  else if val = 121 then class1_select s new_transmit T31_V17_TX T31_V17_RX false 12000
  else if val = 122 then class1_select s new_transmit T31_V17_TX T31_V17_RX true 12000
  else if val = 145 then class1_select s new_transmit T31_V17_TX T31_V17_RX false 14400
  else if val = 146 then class1_select s new_transmit T31_V17_TX T31_V17_RX true 14400
  else (-1, s, [])

/-- Modem families of the specification's Class-1 code table. -/
inductive SpecModemFamily where
  | v27ter
  | v29
  | v17
deriving DecidableEq, Repr

def spec_tx_modem : SpecModemFamily → Int
  | .v27ter => T31_V27TER_TX
  | .v29 => T31_V29_TX
  | .v17 => T31_V17_TX

def spec_rx_modem : SpecModemFamily → Int
  | .v27ter => T31_V27TER_RX
  | .v29 => T31_V29_RX
  | .v17 => T31_V17_RX

/-- The Class-1 code table exactly as the specification (section 4.7) and
the claim tabulate it. -/
def spec_class1_code (val : Nat) : Option (SpecModemFamily × Nat × Bool) :=
  if val = 24 then some (.v27ter, 2400, false)
  else if val = 48 then some (.v27ter, 4800, false)
  else if val = 72 then some (.v29, 7200, false)
  else if val = 96 then some (.v29, 9600, false)
  else if val = 73 then some (.v17, 7200, false)
  else if val = 74 then some (.v17, 7200, true)
  else if val = 97 then some (.v17, 9600, false)
  else if val = 98 then some (.v17, 9600, true)
  else if val = 121 then some (.v17, 12000, false)
  else if val = 122 then some (.v17, 12000, true)
  else if val = 145 then some (.v17, 14400, false)
  else if val = 146 then some (.v17, 14400, true)
  else none

/-- Field bookkeeping for class1_select. -/
lemma class1_select_fields (s : Class1State) (dir : Bool) (txm rxm : Int) (st : Bool)
    (rate : Nat) :
    (class1_select s dir txm rxm st rate).1 = 0 ∧
    (class1_select s dir txm rxm st rate).2.1.modem = (if dir then txm else rxm) ∧
    (class1_select s dir txm rxm st rate).2.1.bit_rate = rate ∧
    (class1_select s dir txm rxm st rate).2.1.short_train = st := by
  rw [class1_select]
  refine ⟨rfl, ?_, ?_, ?_⟩ <;>
    (simp only [class1_mode_set]; split_ifs with hc <;> simp_all)

/-- Claim C3: for every direction and state, a numeric val in the table
selects exactly the (modem family, bit rate, short-train) tuple the table
gives, direction choosing the TX or RX role and the call returning
immediate_response FALSE, while every val outside the table yields the -1
sentinel with the state untouched. -/
theorem c3_class1_dispatch (s : Class1State) (dir : Bool) (val : Nat) :
    (∀ fam rate st, spec_class1_code val = some (fam, rate, st) →
      (process_class1_cmd_num s dir val).1 = 0 ∧
      (process_class1_cmd_num s dir val).2.1.modem =
        (if dir then spec_tx_modem fam else spec_rx_modem fam) ∧
      (process_class1_cmd_num s dir val).2.1.bit_rate = rate ∧
      (process_class1_cmd_num s dir val).2.1.short_train = st) ∧
    (spec_class1_code val = none → process_class1_cmd_num s dir val = (-1, s, [])) := by
  constructor
  · intro fam rate st hsome
    by_cases h1 : val = 24
    · subst h1
      rw [show spec_class1_code 24 = some (SpecModemFamily.v27ter, 2400, false) from rfl] at hsome
      cases hsome
      exact class1_select_fields s dir T31_V27TER_TX T31_V27TER_RX false 2400
    by_cases h2 : val = 48
    · subst h2
      rw [show spec_class1_code 48 = some (SpecModemFamily.v27ter, 4800, false) from rfl] at hsome
      cases hsome
      exact class1_select_fields s dir T31_V27TER_TX T31_V27TER_RX false 4800
    by_cases h3 : val = 72
    · subst h3
      rw [show spec_class1_code 72 = some (SpecModemFamily.v29, 7200, false) from rfl] at hsome
      cases hsome
      exact class1_select_fields s dir T31_V29_TX T31_V29_RX false 7200
    by_cases h4 : val = 96
    · subst h4
      rw [show spec_class1_code 96 = some (SpecModemFamily.v29, 9600, false) from rfl] at hsome
      cases hsome
      exact class1_select_fields s dir T31_V29_TX T31_V29_RX false 9600
    by_cases h5 : val = 73
    · subst h5
      rw [show spec_class1_code 73 = some (SpecModemFamily.v17, 7200, false) from rfl] at hsome
      cases hsome
      exact class1_select_fields s dir T31_V17_TX T31_V17_RX false 7200
    by_cases h6 : val = 74
    · subst h6
      rw [show spec_class1_code 74 = some (SpecModemFamily.v17, 7200, true) from rfl] at hsome
      cases hsome
      exact class1_select_fields s dir T31_V17_TX T31_V17_RX true 7200
    by_cases h7 : val = 97
    · subst h7
      rw [show spec_class1_code 97 = some (SpecModemFamily.v17, 9600, false) from rfl] at hsome
      cases hsome
      exact class1_select_fields s dir T31_V17_TX T31_V17_RX false 9600
    by_cases h8 : val = 98
    · subst h8
      rw [show spec_class1_code 98 = some (SpecModemFamily.v17, 9600, true) from rfl] at hsome
      cases hsome
      exact class1_select_fields s dir T31_V17_TX T31_V17_RX true 9600
    by_cases h9 : val = 121
    · subst h9
      rw [show spec_class1_code 121 = some (SpecModemFamily.v17, 12000, false) from rfl] at hsome
      cases hsome
      exact class1_select_fields s dir T31_V17_TX T31_V17_RX false 12000
    by_cases h10 : val = 122
    · subst h10
      rw [show spec_class1_code 122 = some (SpecModemFamily.v17, 12000, true) from rfl] at hsome
      cases hsome
      exact class1_select_fields s dir T31_V17_TX T31_V17_RX true 12000
    by_cases h11 : val = 145
    · subst h11
      rw [show spec_class1_code 145 = some (SpecModemFamily.v17, 14400, false) from rfl] at hsome
      cases hsome
      exact class1_select_fields s dir T31_V17_TX T31_V17_RX false 14400
    by_cases h12 : val = 146
    · subst h12
      rw [show spec_class1_code 146 = some (SpecModemFamily.v17, 14400, true) from rfl] at hsome
      cases hsome
      exact class1_select_fields s dir T31_V17_TX T31_V17_RX true 14400
    rw [spec_class1_code, if_neg h1, if_neg h2, if_neg h3, if_neg h4, if_neg h5, if_neg h6,
      if_neg h7, if_neg h8, if_neg h9, if_neg h10, if_neg h11, if_neg h12] at hsome
    cases hsome
  · intro hnone
    by_cases g1 : val = 24
    · subst g1; exact absurd hnone (by decide)
    by_cases g2 : val = 48
    · subst g2; exact absurd hnone (by decide)
    by_cases g3 : val = 72
    · subst g3; exact absurd hnone (by decide)
    by_cases g4 : val = 96
    · subst g4; exact absurd hnone (by decide)
    by_cases g5 : val = 73
    · subst g5; exact absurd hnone (by decide)
    by_cases g6 : val = 74
    · subst g6; exact absurd hnone (by decide)
    by_cases g7 : val = 97
    · subst g7; exact absurd hnone (by decide)
    by_cases g8 : val = 98
    · subst g8; exact absurd hnone (by decide)
    by_cases g9 : val = 121
    · subst g9; exact absurd hnone (by decide)
    by_cases g10 : val = 122
    · subst g10; exact absurd hnone (by decide)
    by_cases g11 : val = 145
    · subst g11; exact absurd hnone (by decide)
    by_cases g12 : val = 146
    · subst g12; exact absurd hnone (by decide)
    rw [process_class1_cmd_num, if_neg g1, if_neg g2, if_neg g3, if_neg g4, if_neg g5,
      if_neg g6, if_neg g7, if_neg g8, if_neg g9, if_neg g10, if_neg g11, if_neg g12]

/-- Witness for c3_class1_dispatch: code 97 transmitting selects V.17 TX at
9600 long-train, and the unknown code 99 yields -1 untouched. -/
theorem c3_class1_dispatch_witness :
    ((process_class1_cmd_num
        { modem := -1, short_train := false, bit_rate := 0,
          at_rx_mode := AtMode.offhook_command } true 97).2.1.modem = T31_V17_TX ∧
     (process_class1_cmd_num
        { modem := -1, short_train := false, bit_rate := 0,
          at_rx_mode := AtMode.offhook_command } true 97).2.1.bit_rate = 9600 ∧
     (process_class1_cmd_num
        { modem := -1, short_train := false, bit_rate := 0,
          at_rx_mode := AtMode.offhook_command } true 97).2.1.short_train = false) ∧
    process_class1_cmd_num
      { modem := -1, short_train := false, bit_rate := 0,
        at_rx_mode := AtMode.offhook_command } false 99 =
      (-1, { modem := -1, short_train := false, bit_rate := 0,
             at_rx_mode := AtMode.offhook_command }, []) := by
  have h := (c3_class1_dispatch
    { modem := -1, short_train := false, bit_rate := 0,
      at_rx_mode := AtMode.offhook_command } true 97).1 SpecModemFamily.v17 9600 false
    (by decide)
  exact ⟨⟨by rw [h.2.1]; rfl, h.2.2.1, h.2.2.2⟩,
    (c3_class1_dispatch _ false 99).2 (by decide)⟩

/-! ## T.38 timed transmit scheduler (claim C8) -/

/-- Modelled from the spec: T38_DATA_NONE is an enumerator of the t38_core.h
header, which is not part of the provided source; only assignments of it
occur, so the concrete value is immaterial. -/
def T38_DATA_NONE : Int := -1

/-- The T.38 timed transmit sub-states (t31.c lines 117-134). -/
inductive TimedStep where
  | none
  | non_ecm_modem
  | non_ecm_modem_2
  | non_ecm_modem_3
  | non_ecm_modem_4
  | non_ecm_modem_5
  | hdlc_modem
  | hdlc_modem_2
  | hdlc_modem_3
  | hdlc_modem_4
  | ced
  | ced_2
  | cng
  | cng_2
  | pause
deriving DecidableEq, Repr

/-- Packets handed to the T.38 core for transmission: one indicator, one
data field, or one multi-field data packet (one packet on the wire).  Only
the field types and payload lengths are recorded; the payload bytes of
NON_ECM_MODEM_3 are uninitialized in this version of the source. -/
inductive T38Packet where
  | indicator (ind : T38Ind) (count : Nat)
  | data (data_type : Int) (field : T38Field) (len : Int) (count : Nat)
  | dataMulti (data_type : Int) (field0 : T38Field) (len0 : Int) (field1 : T38Field)
      (len1 : Int) (count : Nat)
deriving DecidableEq, Repr

/-- One row of the training_time table of t31_t38_send_timeout (t31.c lines
425-456). -/
structure TrainingTime where
  without_tep : Nat
  with_tep : Nat
  without_tep_with_flags : Nat
  with_tep_with_flags : Nat
deriving DecidableEq, Repr

/-- The training_time table, indexed by indicator. -/
def training_time : T38Ind → TrainingTime
  | .no_signal => ⟨0, 0, 0, 0⟩
  | .cng => ⟨0, 0, 0, 0⟩
  | .ced => ⟨0, 0, 0, 0⟩
  | .v21_preamble => ⟨0, 0, 1000, 1000⟩
  | .v27ter_2400_training => ⟨943, 1158, 1143, 1158⟩
  | .v27ter_4800_training => ⟨708, 923, 908, 1123⟩
  | .v29_7200_training => ⟨234, 454, 434, 654⟩
  | .v29_9600_training => ⟨234, 454, 434, 654⟩
  | .v17_7200_short_training => ⟨142, 367, 342, 567⟩
  | .v17_7200_long_training => ⟨1393, 1618, 1593, 1818⟩
  | .v17_9600_short_training => ⟨142, 367, 342, 567⟩
  | .v17_9600_long_training => ⟨1393, 1618, 1593, 1818⟩
  | .v17_12000_short_training => ⟨142, 367, 342, 367⟩
  | .v17_12000_long_training => ⟨1393, 1618, 1593, 1818⟩
  | .v17_14400_short_training => ⟨142, 367, 342, 567⟩
  | .v17_14400_long_training => ⟨1393, 1618, 1593, 1818⟩
  | .v8_ansam => ⟨0, 0, 0, 0⟩
  | .v8_signal => ⟨0, 0, 0, 0⟩
  | .v34_cntl_channel_1200 => ⟨0, 0, 0, 0⟩
  | .v34_pri_channel => ⟨0, 0, 0, 0⟩
  | .v34_cc_retrain => ⟨0, 0, 0, 0⟩
  | .v33_12000_training => ⟨0, 0, 0, 0⟩
  | .v33_14400_training => ⟨0, 0, 0, 0⟩

/-- The t31_state_t fields touched or read by t31_t38_send_timeout.  The
field t38_current_tx_indicator stands for the T.38 core's record of the last
indicator sent, which t38_core_send_indicator updates (the core is outside
the provided source); it starts as none. -/
structure T38TxState where
  current_rx_type : Int
  current_tx_type : Int
  samples : Nat
  timeout_rx_samples : Nat
  timed_step : TimedStep
  next_tx_samples : Nat
  t38_current_tx_indicator : Option T38Ind
  next_tx_indicator : T38Ind
  indicator_tx_count : Nat
  data_end_tx_count : Nat
  ms_per_tx_chunk : Nat
  octets_per_data_packet : Nat
  use_tep : Bool
  trailer_bytes : Int
  current_tx_data_type : Int
  hdlc_tx_len : Int
  hdlc_tx_ptr : Int
  merge_tx_fields : Bool
deriving DecidableEq, Repr

/-- The switch body of t31_t38_send_timeout (t31.c lines 473-658), executed
once the sample deadline has passed.  Each case emits at most one indicator
or one (possibly multi-field) data packet, advances next_tx_samples, and
moves to the next sub-state.  The TODO refill hooks of the source are absent
from this version of the code, so the hdlc_tx_len tests that follow the
zeroing of the frame buffer read the just-zeroed value, exactly as in the C.
-/
def timed_step_action (s : T38TxState) : T38TxState × List T38Packet × Int :=
  match s.timed_step with
  | .none => (s, [], 0)
  | .non_ecm_modem =>
    if s.t38_current_tx_indicator ≠ some T38Ind.no_signal then
      ({ s with t38_current_tx_indicator := some T38Ind.no_signal,
                timed_step := .non_ecm_modem_2,
                next_tx_samples := s.next_tx_samples + ms_to_samples 75 },
       [T38Packet.indicator T38Ind.no_signal s.indicator_tx_count], 0)
    else
      ({ s with timed_step := .non_ecm_modem_2,
                next_tx_samples := s.next_tx_samples + ms_to_samples 75 }, [], 0)
  | .non_ecm_modem_2 =>
    ({ s with t38_current_tx_indicator := some s.next_tx_indicator,
              timed_step := .non_ecm_modem_3,
              next_tx_samples := s.next_tx_samples + ms_to_samples
                (if s.use_tep then (training_time s.next_tx_indicator).with_tep
                 else (training_time s.next_tx_indicator).without_tep) },
     [T38Packet.indicator s.next_tx_indicator s.indicator_tx_count], 0)
  | .non_ecm_modem_3 =>
    if (s.octets_per_data_packet : Int) < (s.octets_per_data_packet : Int) then
      ({ s with trailer_bytes :=
                  3 * (s.octets_per_data_packet : Int) + (s.octets_per_data_packet : Int),
                timed_step := .non_ecm_modem_4,
                next_tx_samples := s.next_tx_samples + ms_to_samples s.ms_per_tx_chunk },
       [T38Packet.data s.current_tx_data_type .t4_non_ecm_data
          (s.octets_per_data_packet : Int) DATA_TX_COUNT], 0)
    else
      ({ s with next_tx_samples := s.next_tx_samples + ms_to_samples s.ms_per_tx_chunk },
       [T38Packet.data s.current_tx_data_type .t4_non_ecm_data
          (s.octets_per_data_packet : Int) DATA_TX_COUNT], 0)
  | .non_ecm_modem_4 =>
    if s.trailer_bytes - (s.octets_per_data_packet : Int) ≤ 0 then
      ({ s with trailer_bytes := s.trailer_bytes - (s.octets_per_data_packet : Int),
                timed_step := .non_ecm_modem_5,
                next_tx_samples := s.next_tx_samples + ms_to_samples 60 },
       [T38Packet.data s.current_tx_data_type .t4_non_ecm_sig_end
          ((s.octets_per_data_packet : Int) +
            (s.trailer_bytes - (s.octets_per_data_packet : Int))) s.data_end_tx_count], 0)
    else
      ({ s with trailer_bytes := s.trailer_bytes - (s.octets_per_data_packet : Int),
                next_tx_samples := s.next_tx_samples + ms_to_samples s.ms_per_tx_chunk },
       [T38Packet.data s.current_tx_data_type .t4_non_ecm_data
          (s.octets_per_data_packet : Int) DATA_TX_COUNT], 0)
  | .non_ecm_modem_5 =>
    ({ s with t38_current_tx_indicator := some T38Ind.no_signal, timed_step := .none },
     [T38Packet.indicator T38Ind.no_signal s.indicator_tx_count], 0)
  | .hdlc_modem =>
    ({ s with t38_current_tx_indicator := some s.next_tx_indicator,
              next_tx_samples := s.next_tx_samples + ms_to_samples
                (if s.use_tep then (training_time s.next_tx_indicator).with_tep_with_flags
                 else (training_time s.next_tx_indicator).without_tep_with_flags),
              timed_step := .hdlc_modem_2 },
     [T38Packet.indicator s.next_tx_indicator s.indicator_tx_count], 0)
  | .hdlc_modem_2 =>
    if (s.octets_per_data_packet : Int) ≥ s.hdlc_tx_len - s.hdlc_tx_ptr then
      if s.merge_tx_fields then
        (if ({ s with hdlc_tx_ptr := 0, hdlc_tx_len := 0 } : T38TxState).hdlc_tx_len < 0 then
          ({ s with hdlc_tx_ptr := 0, hdlc_tx_len := 0, timed_step := .hdlc_modem_4,
                    next_tx_samples := s.next_tx_samples + ms_to_samples s.ms_per_tx_chunk },
           [T38Packet.dataMulti s.current_tx_data_type .hdlc_data
              (s.hdlc_tx_len - s.hdlc_tx_ptr) .hdlc_fcs_ok_sig_end 0 DATA_TX_COUNT], 0)
        else
          ({ s with hdlc_tx_ptr := 0, hdlc_tx_len := 0, timed_step := .hdlc_modem_2,
                    next_tx_samples := s.next_tx_samples + ms_to_samples s.ms_per_tx_chunk },
           [T38Packet.dataMulti s.current_tx_data_type .hdlc_data
              (s.hdlc_tx_len - s.hdlc_tx_ptr) .hdlc_fcs_ok 0 DATA_TX_COUNT], 0))
      else
        ({ s with timed_step := .hdlc_modem_3,
                  next_tx_samples := s.next_tx_samples + ms_to_samples s.ms_per_tx_chunk },
         [T38Packet.data s.current_tx_data_type .hdlc_data (s.hdlc_tx_len - s.hdlc_tx_ptr)
            DATA_TX_COUNT], 0)
    else
      ({ s with hdlc_tx_ptr := s.hdlc_tx_ptr + (s.octets_per_data_packet : Int),
                next_tx_samples := s.next_tx_samples + ms_to_samples s.ms_per_tx_chunk },
       [T38Packet.data s.current_tx_data_type .hdlc_data (s.octets_per_data_packet : Int)
          DATA_TX_COUNT], 0)
  | .hdlc_modem_3 =>
    if ({ s with hdlc_tx_ptr := 0, hdlc_tx_len := 0 } : T38TxState).hdlc_tx_len < 0 then
      ({ s with hdlc_tx_ptr := 0, hdlc_tx_len := 0, timed_step := .hdlc_modem_4,
                next_tx_samples := s.next_tx_samples + ms_to_samples 100 },
       [T38Packet.data s.current_tx_data_type .hdlc_fcs_ok_sig_end 0 s.data_end_tx_count], 0)
    else
      if ({ s with hdlc_tx_ptr := 0, hdlc_tx_len := 0 } : T38TxState).hdlc_tx_len ≠ 0 then
        ({ s with hdlc_tx_ptr := 0, hdlc_tx_len := 0, timed_step := .hdlc_modem_2,
                  next_tx_samples := s.next_tx_samples + ms_to_samples s.ms_per_tx_chunk },
         [T38Packet.data s.current_tx_data_type .hdlc_fcs_ok 0 DATA_TX_COUNT], 0)
      else
        ({ s with hdlc_tx_ptr := 0, hdlc_tx_len := 0,
                  next_tx_samples := s.next_tx_samples + ms_to_samples s.ms_per_tx_chunk },
         [T38Packet.data s.current_tx_data_type .hdlc_fcs_ok 0 DATA_TX_COUNT], 0)
  | .hdlc_modem_4 =>
    if ({ s with hdlc_tx_len := 0 } : T38TxState).hdlc_tx_len ≠ 0 then
      ({ s with t38_current_tx_indicator := some T38Ind.no_signal, hdlc_tx_len := 0,
                timed_step := .hdlc_modem,
                next_tx_samples := s.next_tx_samples + ms_to_samples s.ms_per_tx_chunk },
       [T38Packet.indicator T38Ind.no_signal s.indicator_tx_count], 0)
    else
      ({ s with t38_current_tx_indicator := some T38Ind.no_signal, hdlc_tx_len := 0 },
       [T38Packet.indicator T38Ind.no_signal s.indicator_tx_count], 0)
  | .ced =>
    ({ s with timed_step := .ced_2, next_tx_samples := s.samples + ms_to_samples 200,
              t38_current_tx_indicator := some T38Ind.no_signal,
              current_tx_data_type := T38_DATA_NONE },
     [T38Packet.indicator T38Ind.no_signal s.indicator_tx_count], 0)
  | .ced_2 =>
    ({ s with next_tx_samples := s.samples + ms_to_samples 3000, timed_step := .pause,
              t38_current_tx_indicator := some T38Ind.ced,
              current_tx_data_type := T38_DATA_NONE },
     [T38Packet.indicator T38Ind.ced s.indicator_tx_count], 0)
  | .cng =>
    ({ s with timed_step := .cng_2, next_tx_samples := s.samples + ms_to_samples 200,
              t38_current_tx_indicator := some T38Ind.no_signal,
              current_tx_data_type := T38_DATA_NONE },
     [T38Packet.indicator T38Ind.no_signal s.indicator_tx_count], 0)
  | .cng_2 =>
    ({ s with timed_step := .none, t38_current_tx_indicator := some T38Ind.cng,
              current_tx_data_type := T38_DATA_NONE },
     [T38Packet.indicator T38Ind.cng s.indicator_tx_count], 0)
  | .pause =>
    ({ s with timed_step := .none }, [], 0)

/-- The entry bookkeeping of t31_t38_send_timeout (t31.c lines 461-467):
advance the sample clock by the block and disarm the mid-receive backstop if
it has expired. -/
def t38_tick_state (s : T38TxState) (n : Nat) : T38TxState :=
  if ({ s with samples := s.samples + n } : T38TxState).timeout_rx_samples ≠ 0 ∧
     ({ s with samples := s.samples + n } : T38TxState).timeout_rx_samples <
       ({ s with samples := s.samples + n } : T38TxState).samples then
    { s with samples := s.samples + n, timeout_rx_samples := 0 }
  else
    { s with samples := s.samples + n }

/-- t31_t38_send_timeout (t31.c lines 416-660): return TRUE at once when
either side is done; otherwise tick the clock, return FALSE before the
deadline or with no timed step pending, and else run exactly one timed
sub-state case. -/
def t31_t38_send_timeout (s : T38TxState) (n : Nat) : T38TxState × List T38Packet × Int :=
  if s.current_rx_type = T30_MODEM_DONE ∨ s.current_tx_type = T30_MODEM_DONE then (s, [], 1)
  else if (t38_tick_state s n).timed_step = TimedStep.none then (t38_tick_state s n, [], 0)
  else if (t38_tick_state s n).samples < (t38_tick_state s n).next_tx_samples then
    (t38_tick_state s n, [], 0)
  else
    timed_step_action (t38_tick_state s n)

def isIndicatorPacket : T38Packet → Bool
  | .indicator _ _ => true
  | .data _ _ _ _ => false
  | .dataMulti _ _ _ _ _ _ => false

def isDataPacket : T38Packet → Bool
  | .indicator _ _ => false
  | .data _ _ _ _ => true
  | .dataMulti _ _ _ _ _ _ => true

lemma countP_singleton_le (p : T38Packet → Bool) (x : T38Packet) :
    List.countP p [x] ≤ 1 := by
  simp only [List.countP_cons, List.countP_nil]
  split_ifs <;> simp

/-- Tick bookkeeping facts. -/
lemma t38_tick_state_fields (s : T38TxState) (n : Nat) :
    (t38_tick_state s n).timed_step = s.timed_step ∧
    (t38_tick_state s n).samples = s.samples + n ∧
    (t38_tick_state s n).next_tx_samples = s.next_tx_samples := by
  rw [t38_tick_state]
  split_ifs <;> exact ⟨rfl, rfl, rfl⟩

/-- Every sub-state case hands at most one indicator and at most one data
packet to the core. -/
lemma timed_step_action_counts (s : T38TxState) :
    (timed_step_action s).2.1.countP (fun p => isIndicatorPacket p) ≤ 1 ∧
    (timed_step_action s).2.1.countP (fun p => isDataPacket p) ≤ 1 := by
  cases h : s.timed_step <;>
    simp only [timed_step_action, h] <;>
    (try split_ifs) <;>
    constructor <;>
    first
      | exact countP_singleton_le _ _
      | simp

/-- Claim C8: a single t31_t38_send_timeout call emits at most one indicator
and at most one data packet (a multi-field send being one packet), and emits
nothing at all when no timed step is pending or the accumulated sample count
has not yet reached the deadline. -/
theorem c8_send_timeout_single_emission (s : T38TxState) (n : Nat) :
    (t31_t38_send_timeout s n).2.1.countP (fun p => isIndicatorPacket p) ≤ 1 ∧
    (t31_t38_send_timeout s n).2.1.countP (fun p => isDataPacket p) ≤ 1 ∧
    (s.timed_step = TimedStep.none → (t31_t38_send_timeout s n).2.1 = []) ∧
    (s.samples + n < s.next_tx_samples → (t31_t38_send_timeout s n).2.1 = []) := by
  obtain ⟨ht1, ht2, ht3⟩ := t38_tick_state_fields s n
  rw [t31_t38_send_timeout]
  split_ifs with h1 h2 h3
  · exact ⟨by simp, by simp, fun _ => rfl, fun _ => rfl⟩
  · exact ⟨by simp, by simp, fun _ => rfl, fun _ => rfl⟩
  · exact ⟨by simp, by simp, fun _ => rfl, fun _ => rfl⟩
  · obtain ⟨hc1, hc2⟩ := timed_step_action_counts (t38_tick_state s n)
    refine ⟨hc1, hc2, ?_, ?_⟩
    · intro hstep
      exact absurd (ht1.trans hstep) h2
    · intro hlt
      rw [ht2, ht3] at h3
      exact absurd hlt h3

/-- Quiescent scheduler state for the c8 witness. -/
def c8_idle_state : T38TxState :=
  { current_rx_type := 0, current_tx_type := 0, samples := 0, timeout_rx_samples := 0,
    timed_step := TimedStep.none, next_tx_samples := 0, t38_current_tx_indicator := none,
    next_tx_indicator := T38Ind.no_signal, indicator_tx_count := 3, data_end_tx_count := 3,
    ms_per_tx_chunk := 30, octets_per_data_packet := 90, use_tep := false,
    trailer_bytes := 0, current_tx_data_type := 0, hdlc_tx_len := 0, hdlc_tx_ptr := 0,
    merge_tx_fields := false }

/-- Witness for c8_send_timeout_single_emission: with no timed step pending,
a tick emits nothing. -/
theorem c8_send_timeout_single_emission_witness :
    (t31_t38_send_timeout c8_idle_state 5).2.1 = [] :=
  (c8_send_timeout_single_emission c8_idle_state 5).2.2.1 rfl
